import Mathlib

/-
Verification of the multi-format playground component: a canonical JSON
buffer, derived TOON / YAML / CSV representations, a token-cost
calculator, a synchronization controller and a compact share-state codec.
External libraries (zlib, base64, the yaml and papaparse libraries, the
toon structural encoder, the tokenizer, and the JSON builtins) are taken
as parameters of the embedding; a fallible external call is modelled as
an Option-valued function where none stands for a thrown exception that
the component catches.
-/

namespace Playground

/-- The three delimiter values offered by DELIMITER_OPTIONS in the source:
comma, tab and pipe. -/
inductive Delimiter
  | comma
  | tab
  | pipe
  deriving DecidableEq, Repr

/-- The PlaygroundState record from the source: the minimal session state
serialized by the share codec, holding the canonical JSON text, the
delimiter and the indent width. -/
structure PlaygroundState where
  json : String
  delimiter : Delimiter
  indent : Int
  deriving DecidableEq, Repr

/-- External functions consumed by encodeState and decodeState, taken as
parameters: JSON.stringify and JSON.parse at the PlaygroundState shape,
stringToUint8Array and uint8ArrayToString, zlibSync and unzlibSync, and
the URL-safe base64 pair. A step that can throw returns Option, where
none models the thrown exception. -/
structure ShareCodec where
  stringifyState : PlaygroundState → String
  parseState : String → Option PlaygroundState
  strToBytes : String → List Nat
  bytesToStr : List Nat → String
  zlib : List Nat → List Nat
  unzlib : List Nat → Option (List Nat)
  b64encode : List Nat → String
  b64decode : String → Option (List Nat)

/-- Translation of encodeState: JSON-stringify the session state, turn the
text into bytes, compress with zlib, and base64-encode URL-safely. -/
def encodeState (C : ShareCodec) (s : PlaygroundState) : String :=
  C.b64encode (C.zlib (C.strToBytes (C.stringifyState s)))

/-- Translation of decodeState: base64-decode, decompress, turn the bytes
back into text and JSON-parse it; the source wraps the whole body in a
try block whose catch returns undefined, and an empty decoded text also
returns undefined, so every failing step yields none here. -/
def decodeState (C : ShareCodec) (hash : String) : Option PlaygroundState :=
  match C.b64decode hash with
  | none => none
  | some bytes =>
    match C.unzlib bytes with
    | none => none
    | some decompressed =>
      let decoded := C.bytesToStr decompressed
      if decoded = "" then none else C.parseState decoded

/-- Result record of calculateSavings; the field names follow the source
(the spec calls the last field isImprovement). -/
structure CalculatedSavings where
  diff : Int
  percent : String
  sign : Char
  isSavings : Bool
  deriving DecidableEq, Repr

/-- Rendering of a number of tenths as a one-decimal string, modelling the
toFixed call with one digit of the source under exact arithmetic. -/
def fmtTenths (t : Nat) : String := toString (t / 10) ++ "." ++ toString (t % 10)

/-- Translation of calculateSavings: the guard rejects an absent or zero
count on either side (JS truthiness); otherwise diff is the difference of
the counts, percent the absolute relative difference in percent rendered
with one decimal (float arithmetic idealized as exact rationals, toFixed
as round half up to tenths), sign is minus exactly when diff is positive,
and isSavings holds exactly when diff is positive. -/
def calculateSavings (baseTokens compareTokens : Option Nat) : Option CalculatedSavings :=
  match baseTokens, compareTokens with
  | some b, some c =>
    if b = 0 ∨ c = 0 then none
    else
      let diff : Int := (b : Int) - (c : Int)
      some { diff := diff
             percent := fmtTenths ((diff.natAbs * 2000 + b) / (2 * b))
             sign := if 0 < diff then '-' else '+'
             isSavings := decide (0 < diff) }
  | _, _ => none

/-- Document values produced by parsing: the JSON value tree. Numbers are
idealized as integers, which is enough for the synchronization claims. -/
inductive Json
  | null
  | bool (b : Bool)
  | num (n : Int)
  | str (s : String)
  | arr (elems : List Json)
  | obj (fields : List (String × Json))

/-- Interface of the lazily loaded yaml library: stringify takes the indent
option and may throw (none); parse may throw on malformed text (none). -/
structure YamlLib where
  stringify : Json → Int → Option String
  parse : String → Option Json

/-- The papaparse configuration record: the two options the source passes
at the parse call. -/
structure PapaConfig where
  header : Bool
  dynamicTyping : Bool
  deriving DecidableEq, Repr

/-- Interface of the lazily loaded papaparse library: unparse of a list of
records, and parse under a configuration; none models a throw. -/
structure PapaLib where
  unparse : List Json → Option String
  parse : PapaConfig → String → Option Json

/-- External functions of the live component: the lazily loaded tokenizer,
yaml and papaparse libraries (none while not yet loaded), the toon
structural encoder taking indent and delimiter, and the JSON builtins,
where jsonParse returns the error message on a throw and jsonStringify is
the two-space pretty printer. -/
structure Libs where
  tokenizer : Option (String → List Nat)
  yaml : Option YamlLib
  papa : Option PapaLib
  toonEncode : Json → Int → Delimiter → Option String
  jsonParse : String → Except String Json
  jsonStringify : Json → String

/-- The editable buffers: the source refs jsonInput, yamlInput, csvInput. -/
inductive EditorId
  | json
  | yaml
  | csv
  deriving DecidableEq, Repr

/-- The four pane identifiers of the formats list. -/
inductive FormatId
  | json
  | toon
  | yaml
  | csv
  deriving DecidableEq, Repr

/-- The reactive state of the component: loaded libraries, the three
editable text buffers, the two formatting options and the active editor. -/
structure PState where
  libs : Libs
  jsonInput : String
  yamlInput : String
  csvInput : String
  delimiter : Delimiter
  indent : Int
  activeEditor : EditorId

/-- Translation of the parsedJson computed: JSON-parse the canonical text,
keeping the error message on failure. -/
def parsedJson (s : PState) : Except String Json := s.libs.jsonParse s.jsonInput

/-- Whether the canonical text currently fails to parse. -/
def hasParseError (s : PState) : Bool :=
  match parsedJson s with
  | .error _ => true
  | .ok _ => false

/-- Translation of the toonOutput computed: empty on a canonical parse
error, otherwise the toon encoding of the document under the current
indent and delimiter, degraded to empty if the encoder throws. -/
def toonOutput (s : PState) : String :=
  match parsedJson s with
  | .error _ => ""
  | .ok d => (s.libs.toonEncode d s.indent s.delimiter).getD ""

/-- Translation of the yamlOutput computed: empty while the yaml library is
not loaded or on a canonical parse error, otherwise the yaml rendering of
the document, degraded to empty if stringify throws. -/
def yamlOutput (s : PState) : String :=
  match s.libs.yaml, parsedJson s with
  | some y, .ok d => (y.stringify d s.indent).getD ""
  | _, _ => ""

/-- The wrapping step of the csv pipeline: a document that is not already a
list is wrapped in a one-element list. -/
def asArray : Json → List Json
  | .arr xs => xs
  | v => [v]

/-- Whether a document is a list value. -/
def isArr : Json → Bool
  | .arr _ => true
  | _ => false

/-- Translation of the csvOutput computed: empty while papaparse is not
loaded or on a canonical parse error, otherwise the unparse of the
document coerced to a list, degraded to empty if unparse throws. -/
def csvOutput (s : PState) : String :=
  match s.libs.papa, parsedJson s with
  | some p, .ok d => (p.unparse (asArray d)).getD ""
  | _, _ => ""

/-- Translation of calculateTokens: the length of the tokenizer encoding,
or none while the tokenizer is not loaded. -/
def calculateTokens (tok : Option (String → List Nat)) (text : String) : Option Nat :=
  tok.map fun f => (f text).length

/-- Translation of the jsonTokens computed: note the source applies
calculateTokens to the json buffer without an emptiness guard. -/
def jsonTokens (s : PState) : Option Nat := calculateTokens s.libs.tokenizer s.jsonInput

/-- Translation of the yamlTokens computed: none on empty yaml output. -/
def yamlTokens (s : PState) : Option Nat :=
  if yamlOutput s = "" then none else calculateTokens s.libs.tokenizer (yamlOutput s)

/-- Translation of the csvTokens computed: none on empty csv output. -/
def csvTokens (s : PState) : Option Nat :=
  if csvOutput s = "" then none else calculateTokens s.libs.tokenizer (csvOutput s)

/-- Translation of the toonTokens computed: none on empty toon output. -/
def toonTokens (s : PState) : Option Nat :=
  if toonOutput s = "" then none else calculateTokens s.libs.tokenizer (toonOutput s)

/-- One entry of the formats computed; savings is none for the json pane. -/
structure Format where
  id : FormatId
  title : String
  editable : Bool
  output : String
  tokens : Option Nat
  savings : Option CalculatedSavings

/-- Translation of the formats computed: the four panes in source order,
each carrying its displayed output text, token count and savings badge. -/
def formats (s : PState) : List Format :=
  [ { id := FormatId.json, title := "JSON Input", editable := true,
      output := s.jsonInput, tokens := jsonTokens s, savings := none },
    { id := FormatId.toon, title := "TOON Output", editable := false,
      output := toonOutput s, tokens := toonTokens s,
      savings := calculateSavings (jsonTokens s) (toonTokens s) },
    { id := FormatId.yaml, title := "YAML", editable := true,
      output := yamlOutput s, tokens := yamlTokens s,
      savings := calculateSavings (jsonTokens s) (yamlTokens s) },
    { id := FormatId.csv, title := "CSV", editable := true,
      output := csvOutput s, tokens := csvTokens s,
      savings := calculateSavings (jsonTokens s) (csvTokens s) } ]

/-- Second half of syncOutputs: write the csv buffer from the document when
papaparse is loaded, leaving the state as is if unparse throws. -/
def syncCsv (s : PState) (d : Json) : PState :=
  match s.libs.papa with
  | some p =>
    match p.unparse (asArray d) with
    | none => s
    | some t => { s with csvInput := t }
  | none => s

/-- Translation of syncOutputs: a no-op unless the json editor is active
and the canonical text parses; otherwise write the yaml buffer, then the
csv buffer, from the parsed document. The two assignments are not wrapped
in try, so a yaml stringify throw aborts the whole pass (the csv buffer is
then not written either) and an unparse throw aborts only the csv write. -/
def syncOutputs (s : PState) : PState :=
  if s.activeEditor = EditorId.json then
    match parsedJson s with
    | .error _ => s
    | .ok d =>
      match s.libs.yaml with
      | some y =>
        match y.stringify d s.indent with
        | none => s
        | some t => syncCsv { s with yamlInput := t } d
      | none => syncCsv s d
  else s

/-- Assignment of the canonical json buffer together with the reactive
watcher on it: the watcher fires syncOutputs only when the value actually
changes. -/
def setJsonInput (s : PState) (v : String) : PState :=
  if v = s.jsonInput then s else syncOutputs { s with jsonInput := v }

/-- The papaparse configuration the source passes when parsing a csv edit:
header rows on and dynamic typing (heuristic numeric coercion) on. -/
def csvParseConfig : PapaConfig := { header := true, dynamicTyping := true }

/-- Translation of parseInput.yaml: a no-op while the yaml library is not
loaded; a parse throw is swallowed by the empty catch; on success the
canonical buffer is set to the two-space JSON rendering of the parsed
document. -/
def parseInputYaml (s : PState) (v : String) : PState :=
  match s.libs.yaml with
  | none => s
  | some y =>
    match y.parse v with
    | none => s
    | some parsed => setJsonInput s (s.libs.jsonStringify parsed)

/-- Translation of parseInput.csv: a no-op while papaparse is not loaded; a
parse throw is swallowed; on a result with data the canonical buffer is
set to the two-space JSON rendering of the parsed rows. -/
def parseInputCsv (s : PState) (v : String) : PState :=
  match s.libs.papa with
  | none => s
  | some p =>
    match p.parse csvParseConfig v with
    | none => s
    | some result => setJsonInput s (s.libs.jsonStringify result)

/-- Translation of handleEditorFocus: only the three editable pane ids move
the active-editor mark. -/
def handleEditorFocus (s : PState) (id : FormatId) : PState :=
  match id with
  | FormatId.json => { s with activeEditor := EditorId.json }
  | FormatId.yaml => { s with activeEditor := EditorId.yaml }
  | FormatId.csv => { s with activeEditor := EditorId.csv }
  | FormatId.toon => s

/-- The user-visible events of the component: edits through
updateEditorInput, focus changes, and the two option controls. -/
inductive Event
  | editJson (v : String)
  | editYaml (v : String)
  | editCsv (v : String)
  | focus (id : FormatId)
  | setDelimiter (d : Delimiter)
  | setIndent (n : Int)

/-- One settle cycle of the component: the event mutates its ref and every
watcher that fires on the change runs to completion. An edit of the yaml
or csv buffer feeds parseInput only while that editor is active, exactly
as the source watchers guard. -/
def step (s : PState) : Event → PState
  | Event.editJson v => setJsonInput s v
  | Event.editYaml v =>
    if v = s.yamlInput then s
    else
      let s1 := { s with yamlInput := v }
      if s1.activeEditor = EditorId.yaml then parseInputYaml s1 v else s1
  | Event.editCsv v =>
    if v = s.csvInput then s
    else
      let s1 := { s with csvInput := v }
      if s1.activeEditor = EditorId.csv then parseInputCsv s1 v else s1
  | Event.focus id => handleEditorFocus s id
  | Event.setDelimiter d => { s with delimiter := d }
  | Event.setIndent n => { s with indent := n }

/-- The session state the source encodeState reads from the live refs. -/
def sessionOf (s : PState) : PlaygroundState :=
  { json := s.jsonInput, delimiter := s.delimiter, indent := s.indent }

/-- The buffer text of one editable representation. -/
def bufferOf (s : PState) : EditorId → String
  | EditorId.json => s.jsonInput
  | EditorId.yaml => s.yamlInput
  | EditorId.csv => s.csvInput

/-- Concrete yaml library used to instantiate the embedding in witnesses
and counterexamples: it renders the empty object and a nonempty object to
two fixed texts and parses exactly one fixed text. -/
def demoYaml : YamlLib :=
  { stringify := fun d _ =>
      match d with
      | Json.obj [] => some "{}\n"
      | Json.obj (_ :: _) => some "a: 1\n"
      | _ => some ""
    parse := fun t =>
      if t = "a: 1" then some (Json.obj [("a", Json.num 1)]) else none }

/-- Concrete papaparse library for witnesses and counterexamples: unparse
reports the row count and parse accepts exactly one fixed text. -/
def demoPapa : PapaLib :=
  { unparse := fun xs => some ("rows:" ++ toString xs.length)
    parse := fun _ v => if v = "x,y" then some (Json.arr []) else none }

/-- Concrete JSON parser for witnesses and counterexamples: two accepted
texts, everything else a parse error. -/
def demoJsonParse : String → Except String Json := fun t =>
  if t = "OK" then Except.ok (Json.obj [])
  else if t = "J1" then Except.ok (Json.obj [("a", Json.num 1)])
  else Except.error "Invalid JSON"

/-- Concrete JSON pretty printer matching demoJsonParse on its two accepted
documents. -/
def demoJsonStringify : Json → String := fun d =>
  match d with
  | Json.obj (_ :: _) => "J1"
  | _ => "OK"

/-- Concrete library bundle for witnesses and counterexamples. -/
def demoLibs : Libs :=
  { tokenizer := some (fun t => t.toList.map Char.toNat)
    yaml := some demoYaml
    papa := some demoPapa
    toonEncode := fun _ _ _ => some "T"
    jsonParse := demoJsonParse
    jsonStringify := demoJsonStringify }

/-- Concrete base state for witnesses and counterexamples: a parseable
canonical text and the json editor active. -/
def demoState : PState :=
  { libs := demoLibs, jsonInput := "OK", yamlInput := "", csvInput := "",
    delimiter := Delimiter.comma, indent := 2, activeEditor := EditorId.json }

/-- The base state with the yaml editor active. -/
def demoStateYaml : PState := { demoState with activeEditor := EditorId.yaml }

/-- The base state with an empty canonical buffer. -/
def demoStateEmptyJson : PState := { demoState with jsonInput := "" }

/-- Claim C1: decoding the share token produced by encoding a valid session
state yields that state back, given the contracts of the external steps at
the encoded value: base64 decode inverts base64 encode, unzlib inverts
zlib, the byte-to-text conversion inverts the text-to-byte one, the
JSON-stringified state is nonempty, and JSON parse inverts JSON stringify
on the state shape. -/
theorem decodeState_encodeState_roundtrip (C : ShareCodec) (s : PlaygroundState)
    (hb : C.b64decode (C.b64encode (C.zlib (C.strToBytes (C.stringifyState s)))) =
      some (C.zlib (C.strToBytes (C.stringifyState s))))
    (hz : C.unzlib (C.zlib (C.strToBytes (C.stringifyState s))) =
      some (C.strToBytes (C.stringifyState s)))
    (hs : C.bytesToStr (C.strToBytes (C.stringifyState s)) = C.stringifyState s)
    (hne : C.stringifyState s ≠ "")
    (hp : C.parseState (C.stringifyState s) = some s) :
    decodeState C (encodeState C s) = some s := by
  simp only [decodeState, encodeState, hb, hz, hs, if_neg hne, hp]

/-- Concrete share codec used to instantiate the library parameters in the
round-trip and failure witnesses. -/
def wCodec : ShareCodec :=
  { stringifyState := fun st => st.json
    parseState := fun t => if t = "W" then some ⟨"W", Delimiter.comma, 2⟩ else none
    strToBytes := fun t => [t.length]
    bytesToStr := fun b => if b = [1] then "W" else ""
    zlib := fun b => b
    unzlib := fun b => some b
    b64encode := fun b => if b = [1] then "B" else ""
    b64decode := fun t => if t = "B" then some [1] else none }

/-- Witness for Claim C1 at the concrete state with json text W, comma
delimiter and indent 2, under the concrete witness codec. -/
theorem decodeState_encodeState_roundtrip_witness :
    decodeState wCodec (encodeState wCodec ⟨"W", Delimiter.comma, 2⟩) =
      some ⟨"W", Delimiter.comma, 2⟩ :=
  decodeState_encodeState_roundtrip wCodec ⟨"W", Delimiter.comma, 2⟩
    (by decide) (by decide) (by decide) (by decide) (by decide)

/-- Claim C2: decodeState is a total function into Option, so no exception
reaches the caller, and whichever step fails, the result is none: when the
base64 decode throws, when decompression throws, when the decoded text is
empty (the falsy branch of the source), and when the JSON parse throws. -/
theorem decodeState_malformed_none (C : ShareCodec) (hash : String) :
    (decodeState C hash = none ∨ ∃ st, decodeState C hash = some st) ∧
    (C.b64decode hash = none → decodeState C hash = none) ∧
    (∀ b, C.b64decode hash = some b → C.unzlib b = none → decodeState C hash = none) ∧
    (∀ b d, C.b64decode hash = some b → C.unzlib b = some d →
      C.bytesToStr d = "" → decodeState C hash = none) ∧
    (∀ b d, C.b64decode hash = some b → C.unzlib b = some d →
      C.bytesToStr d ≠ "" → C.parseState (C.bytesToStr d) = none →
      decodeState C hash = none) := by
  refine ⟨?_, ?_, ?_, ?_, ?_⟩
  · cases h : decodeState C hash with
    | none => exact Or.inl rfl
    | some st => exact Or.inr ⟨st, rfl⟩
  · intro hb
    simp only [decodeState, hb]
  · intro b hb hz
    simp only [decodeState, hb, hz]
  · intro b d hb hz he
    simp only [decodeState, hb, hz, he, if_pos]
  · intro b d hb hz hne hp
    simp only [decodeState, hb, hz, if_neg hne, hp]

/-- Witness for Claim C2: a token the witness codec cannot base64-decode is
decoded to none. -/
theorem decodeState_malformed_none_witness : decodeState wCodec "X" = none :=
  (decodeState_malformed_none wCodec "X").2.1 (by decide)

/-- Claim C6: for positive token counts the savings record has diff equal to
base minus compare, sign minus exactly when the compared count is below the
base count, isSavings exactly in the same case, and the one-decimal
rendering of the absolute relative difference in percent; in particular
the two concrete examples of the spec hold. -/
theorem calculateSavings_spec (b c : Nat) (hb : 0 < b) (hc : 0 < c) :
    calculateSavings (some b) (some c) =
      some { diff := (b : Int) - (c : Int)
             percent := fmtTenths ((((b : Int) - (c : Int)).natAbs * 2000 + b) / (2 * b))
             sign := if (c : Int) < (b : Int) then '-' else '+'
             isSavings := decide ((c : Int) < (b : Int)) } ∧
    calculateSavings (some 100) (some 80) = some ⟨20, "20.0", '-', true⟩ ∧
    calculateSavings (some 80) (some 100) = some ⟨-20, "25.0", '+', false⟩ := by
  refine ⟨?_, by decide, by decide⟩
  have hguard : ¬(b = 0 ∨ c = 0) := by omega
  have hiff : (0 < (b : Int) - (c : Int)) ↔ ((c : Int) < (b : Int)) := by omega
  simp only [calculateSavings, if_neg hguard]
  rw [if_congr hiff rfl rfl, decide_eq_decide.mpr hiff]

/-- Witness for Claim C6 at the concrete counts 100 and 80. -/
theorem calculateSavings_spec_witness :
    calculateSavings (some 100) (some 80) = some ⟨20, "20.0", '-', true⟩ :=
  (calculateSavings_spec 100 80 (by decide) (by decide)).2.1

/-- Claim C7: the savings computation returns none whenever the base count
or the compare count is zero, and whenever either argument is absent, so
it never divides by zero. -/
theorem calculateSavings_zero_or_missing :
    ∀ x : Nat, calculateSavings (some 0) (some x) = none ∧
      calculateSavings (some x) (some 0) = none ∧
      ∀ o : Option Nat, calculateSavings none o = none ∧ calculateSavings o none = none := by
  intro x
  refine ⟨by simp [calculateSavings], by simp [calculateSavings], ?_⟩
  intro o
  cases o <;> exact ⟨rfl, rfl⟩

/-- The derivation pass leaves the canonical buffer untouched. -/
theorem syncOutputs_jsonInput (s : PState) : (syncOutputs s).jsonInput = s.jsonInput := by
  unfold syncOutputs syncCsv
  repeat' split
  all_goals rfl

/-- The derivation pass leaves the active-editor mark untouched. -/
theorem syncOutputs_activeEditor (s : PState) :
    (syncOutputs s).activeEditor = s.activeEditor := by
  unfold syncOutputs syncCsv
  repeat' split
  all_goals rfl

/-- The derivation pass is a no-op while a non-canonical editor is active. -/
theorem syncOutputs_not_json (s : PState) (h : ¬s.activeEditor = EditorId.json) :
    syncOutputs s = s := by
  unfold syncOutputs
  rw [if_neg h]

/-- The derivation pass is a no-op while the canonical text fails to
parse. -/
theorem syncOutputs_of_error (s : PState) (m : String)
    (hm : s.libs.jsonParse s.jsonInput = Except.error m) : syncOutputs s = s := by
  simp [syncOutputs, parsedJson, hm]

/-- The toon computed is empty while the canonical text fails to parse. -/
theorem toonOutput_of_error (s : PState) (m : String)
    (hm : s.libs.jsonParse s.jsonInput = Except.error m) : toonOutput s = "" := by
  simp [toonOutput, parsedJson, hm]

/-- The yaml computed is empty while the canonical text fails to parse. -/
theorem yamlOutput_of_error (s : PState) (m : String)
    (hm : s.libs.jsonParse s.jsonInput = Except.error m) : yamlOutput s = "" := by
  rcases hy : s.libs.yaml with _ | y <;> simp [yamlOutput, parsedJson, hm, hy]

/-- The csv computed is empty while the canonical text fails to parse. -/
theorem csvOutput_of_error (s : PState) (m : String)
    (hm : s.libs.jsonParse s.jsonInput = Except.error m) : csvOutput s = "" := by
  rcases hp : s.libs.papa with _ | p <;> simp [csvOutput, parsedJson, hm, hp]

/-- A document that is not a list is wrapped in a one-element list. -/
theorem asArray_of_not_arr (d : Json) (h : isArr d = false) : asArray d = [d] := by
  cases d <;> simp_all [isArr, asArray]

/-- Claim C5, amended: the re-derivation pass never overwrites the buffer
of the active editor (it writes the yaml and csv buffers only while the
json editor is active, and never writes the json buffer); the displayed
output of the yaml and csv panes, however, is the derived computed text,
which tracks the canonical document even while that pane is active. -/
theorem syncOutputs_preserves_active_buffer (s : PState) :
    bufferOf (syncOutputs s) s.activeEditor = bufferOf s s.activeEditor ∧
    (syncOutputs s).jsonInput = s.jsonInput ∧
    (syncOutputs s).activeEditor = s.activeEditor := by
  refine ⟨?_, syncOutputs_jsonInput s, syncOutputs_activeEditor s⟩
  by_cases ha : s.activeEditor = EditorId.json
  · rw [ha]
    exact syncOutputs_jsonInput s
  · rw [syncOutputs_not_json s ha]

/-- Counterexample to Claim C5 as stated: with the yaml editor active, a
valid yaml edit round-trips through the canonical document and the yaml
pane displayed output (entry 2 of formats) is replaced by the freshly
derived text, which differs both from its previous value and from the text
the user typed. -/
theorem claim_c5_counterexample :
    demoStateYaml.activeEditor = EditorId.yaml ∧
    (step demoStateYaml (Event.editYaml "a: 1")).activeEditor = EditorId.yaml ∧
    yamlOutput demoStateYaml = "{}\n" ∧
    yamlOutput (step demoStateYaml (Event.editYaml "a: 1")) = "a: 1\n" ∧
    ((formats (step demoStateYaml (Event.editYaml "a: 1"))).get ⟨2, by decide⟩).output
      = "a: 1\n" ∧
    (step demoStateYaml (Event.editYaml "a: 1")).yamlInput = "a: 1" ∧
    yamlOutput (step demoStateYaml (Event.editYaml "a: 1")) ≠ "a: 1" := by
  refine ⟨rfl, rfl, rfl, rfl, rfl, rfl, by decide⟩

/-- Claim C3, amended: when an edit makes the canonical text unparseable,
the editable yaml and csv buffers freeze at their last-good value (the
derivation pass is blocked), but the computed toon, yaml and csv outputs
are not frozen: they all become the empty string. -/
theorem canonical_error_freezes_buffers (s : PState) (v : String)
    (hmex : ∃ m, s.libs.jsonParse v = Except.error m) :
    (step s (Event.editJson v)).yamlInput = s.yamlInput ∧
    (step s (Event.editJson v)).csvInput = s.csvInput ∧
    toonOutput (step s (Event.editJson v)) = "" ∧
    yamlOutput (step s (Event.editJson v)) = "" ∧
    csvOutput (step s (Event.editJson v)) = "" := by
  obtain ⟨m, hm⟩ := hmex
  show (setJsonInput s v).yamlInput = s.yamlInput ∧ (setJsonInput s v).csvInput = s.csvInput ∧
    toonOutput (setJsonInput s v) = "" ∧ yamlOutput (setJsonInput s v) = "" ∧
    csvOutput (setJsonInput s v) = ""
  unfold setJsonInput
  by_cases hv : v = s.jsonInput
  · rw [if_pos hv]
    subst hv
    exact ⟨rfl, rfl, toonOutput_of_error s m hm, yamlOutput_of_error s m hm,
      csvOutput_of_error s m hm⟩
  · rw [if_neg hv]
    rw [syncOutputs_of_error { s with jsonInput := v } m hm]
    exact ⟨rfl, rfl, toonOutput_of_error _ m hm, yamlOutput_of_error _ m hm,
      csvOutput_of_error _ m hm⟩

/-- Witness for the amended Claim C3 at the concrete base state and the
unparseable edit text BAD. -/
theorem canonical_error_freezes_buffers_witness :
    toonOutput (step demoState (Event.editJson "BAD")) = "" :=
  (canonical_error_freezes_buffers demoState "BAD" ⟨"Invalid JSON", rfl⟩).2.2.1

/-- Counterexample to Claim C3 as stated: before the failing edit the toon
text is nonempty; the failing edit leaves the canonical text unparseable
and the toon text changes to the empty string instead of staying frozen at
its last-good value. -/
theorem claim_c3_counterexample :
    toonOutput demoState = "T" ∧
    hasParseError (step demoState (Event.editJson "BAD")) = true ∧
    toonOutput (step demoState (Event.editJson "BAD")) ≠ toonOutput demoState := by
  refine ⟨rfl, rfl, by decide⟩

/-- Claim C4: an edit of the yaml or csv editor whose text the matching
parser rejects (a thrown parse error, swallowed by the empty catch) leaves
the canonical buffer, the canonical parse result and the texts of every
sibling representation unchanged; the step function is total, so no
exception escapes. -/
theorem invalid_alt_edit_preserves (s : PState) (v : String) :
    ((∀ y, s.libs.yaml = some y → y.parse v = none) →
     (step s (Event.editYaml v)).jsonInput = s.jsonInput ∧
     (step s (Event.editYaml v)).csvInput = s.csvInput ∧
     parsedJson (step s (Event.editYaml v)) = parsedJson s ∧
     toonOutput (step s (Event.editYaml v)) = toonOutput s ∧
     yamlOutput (step s (Event.editYaml v)) = yamlOutput s ∧
     csvOutput (step s (Event.editYaml v)) = csvOutput s) ∧
    ((∀ p, s.libs.papa = some p → p.parse csvParseConfig v = none) →
     (step s (Event.editCsv v)).jsonInput = s.jsonInput ∧
     (step s (Event.editCsv v)).yamlInput = s.yamlInput ∧
     parsedJson (step s (Event.editCsv v)) = parsedJson s ∧
     toonOutput (step s (Event.editCsv v)) = toonOutput s ∧
     yamlOutput (step s (Event.editCsv v)) = yamlOutput s ∧
     csvOutput (step s (Event.editCsv v)) = csvOutput s) := by
  constructor
  · intro hy
    have hYaml : step s (Event.editYaml v) =
        if v = s.yamlInput then s else { s with yamlInput := v } := by
      show (if v = s.yamlInput then s
        else if ({ s with yamlInput := v } : PState).activeEditor = EditorId.yaml
          then parseInputYaml { s with yamlInput := v } v
          else { s with yamlInput := v }) =
        if v = s.yamlInput then s else { s with yamlInput := v }
      by_cases hv : v = s.yamlInput
      · rw [if_pos hv, if_pos hv]
      · rw [if_neg hv, if_neg hv]
        by_cases ha : ({ s with yamlInput := v } : PState).activeEditor = EditorId.yaml
        · rw [if_pos ha]
          unfold parseInputYaml
          rcases hyl : s.libs.yaml with _ | y
          · simp only [hyl]
          · simp only [hyl, hy y hyl]
        · rw [if_neg ha]
    rw [hYaml]
    by_cases hv : v = s.yamlInput
    · rw [if_pos hv]
      exact ⟨rfl, rfl, rfl, rfl, rfl, rfl⟩
    · rw [if_neg hv]
      exact ⟨rfl, rfl, rfl, rfl, rfl, rfl⟩
  · intro hp
    have hCsv : step s (Event.editCsv v) =
        if v = s.csvInput then s else { s with csvInput := v } := by
      show (if v = s.csvInput then s
        else if ({ s with csvInput := v } : PState).activeEditor = EditorId.csv
          then parseInputCsv { s with csvInput := v } v
          else { s with csvInput := v }) =
        if v = s.csvInput then s else { s with csvInput := v }
      by_cases hv : v = s.csvInput
      · rw [if_pos hv, if_pos hv]
      · rw [if_neg hv, if_neg hv]
        by_cases ha : ({ s with csvInput := v } : PState).activeEditor = EditorId.csv
        · rw [if_pos ha]
          unfold parseInputCsv
          rcases hpl : s.libs.papa with _ | p
          · simp only [hpl]
          · simp only [hpl, hp p hpl]
        · rw [if_neg ha]
    rw [hCsv]
    by_cases hv : v = s.csvInput
    · rw [if_pos hv]
      exact ⟨rfl, rfl, rfl, rfl, rfl, rfl⟩
    · rw [if_neg hv]
      exact ⟨rfl, rfl, rfl, rfl, rfl, rfl⟩

/-- Witness for Claim C4: with the yaml editor active, an edit text the
demo yaml parser rejects leaves the canonical buffer unchanged. -/
theorem invalid_alt_edit_preserves_witness :
    (step demoStateYaml (Event.editYaml "###")).jsonInput = "OK" :=
  ((invalid_alt_edit_preserves demoStateYaml "###").1
    (fun y hy => by injection hy with h; rw [← h]; rfl)).1

/-- Claim C8, amended: every token count is undefined while the tokenizer
is not loaded; the toon, yaml and csv counts are also undefined while the
corresponding output text is empty; with the tokenizer loaded the count is
the length of the encoding of the text — but the json count has no
emptiness guard, so an empty canonical buffer yields the encoding length
of the empty text (zero) rather than undefined. -/
theorem tokenCounts_spec (s : PState) :
    (s.libs.tokenizer = none →
      jsonTokens s = none ∧ yamlTokens s = none ∧ csvTokens s = none ∧ toonTokens s = none) ∧
    (yamlOutput s = "" → yamlTokens s = none) ∧
    (csvOutput s = "" → csvTokens s = none) ∧
    (toonOutput s = "" → toonTokens s = none) ∧
    (∀ f, s.libs.tokenizer = some f →
      jsonTokens s = some (f s.jsonInput).length ∧
      (yamlOutput s ≠ "" → yamlTokens s = some (f (yamlOutput s)).length) ∧
      (csvOutput s ≠ "" → csvTokens s = some (f (csvOutput s)).length) ∧
      (toonOutput s ≠ "" → toonTokens s = some (f (toonOutput s)).length)) := by
  refine ⟨?_, ?_, ?_, ?_, ?_⟩
  · intro h
    simp [jsonTokens, yamlTokens, csvTokens, toonTokens, calculateTokens, h]
  · intro h
    simp [yamlTokens, h]
  · intro h
    simp [csvTokens, h]
  · intro h
    simp [toonTokens, h]
  · intro f h
    refine ⟨by simp [jsonTokens, calculateTokens, h], ?_, ?_, ?_⟩
    · intro hne
      simp [yamlTokens, calculateTokens, h, hne]
    · intro hne
      simp [csvTokens, calculateTokens, h, hne]
    · intro hne
      simp [toonTokens, calculateTokens, h, hne]

/-- Witness for the amended Claim C8 at the concrete base state, whose
canonical text OK has two characters. -/
theorem tokenCounts_spec_witness : jsonTokens demoState = some 2 :=
  ((tokenCounts_spec demoState).2.2.2.2 _ rfl).1

/-- Counterexample to Claim C8 as stated: with the tokenizer loaded and an
empty canonical buffer, the json token count is zero, not undefined. -/
theorem claim_c8_counterexample :
    demoStateEmptyJson.jsonInput = "" ∧
    demoStateEmptyJson.libs.tokenizer ≠ none ∧
    jsonTokens demoStateEmptyJson = some 0 := by
  refine ⟨rfl, ?_, rfl⟩
  intro h
  simp [demoState, demoStateEmptyJson, demoLibs] at h

/-- Claim C9: with papaparse loaded and the canonical text parsed, the csv
serialization runs on the document coerced to a list (a non-list document
is wrapped in a one-element list, a list is passed as is, and a throwing
unparse degrades to the empty text), and the csv parse path passes the
configuration with the heuristic numeric coercion switched on. -/
theorem csv_wraps_nonlist (s : PState) (p : PapaLib) (d : Json)
    (hp : s.libs.papa = some p) (hd : parsedJson s = Except.ok d) :
    csvOutput s = (p.unparse (asArray d)).getD "" ∧
    (isArr d = false → csvOutput s = (p.unparse [d]).getD "") ∧
    (∀ xs, d = Json.arr xs → csvOutput s = (p.unparse xs).getD "") ∧
    csvParseConfig.dynamicTyping = true ∧
    (∀ v r, p.parse csvParseConfig v = some r →
      parseInputCsv s v = setJsonInput s (s.libs.jsonStringify r)) := by
  have hout : csvOutput s = (p.unparse (asArray d)).getD "" := by
    simp [csvOutput, hp, hd]
  refine ⟨hout, ?_, ?_, rfl, ?_⟩
  · intro h
    rw [hout, asArray_of_not_arr d h]
  · intro xs hxs
    rw [hout, hxs]
    rfl
  · intro v r hr
    simp only [parseInputCsv, hp, hr]

/-- Witness for Claim C9 at the concrete base state: its document is the
empty object, which is not a list, so the unparse of the one-element
wrapping reports one row. -/
theorem csv_wraps_nonlist_witness : csvOutput demoState = "rows:1" :=
  ((csv_wraps_nonlist demoState demoPapa (Json.obj []) rfl rfl).2.1) rfl

/-- Claim C10: the derivation and share-encoding pipeline is deterministic:
two states that agree on the canonical text, the delimiter, the indent and
the loaded libraries have equal toon, yaml and csv outputs, and the share
codec produces the identical token for their sessions. -/
theorem deterministic_outputs (C : ShareCodec) (s1 s2 : PState)
    (hj : s1.jsonInput = s2.jsonInput) (hd : s1.delimiter = s2.delimiter)
    (hi : s1.indent = s2.indent) (hl : s1.libs = s2.libs) :
    toonOutput s1 = toonOutput s2 ∧ yamlOutput s1 = yamlOutput s2 ∧
    csvOutput s1 = csvOutput s2 ∧
    encodeState C (sessionOf s1) = encodeState C (sessionOf s2) := by
  cases s1
  cases s2
  simp only at hj hd hi hl
  subst hj
  subst hd
  subst hi
  subst hl
  exact ⟨rfl, rfl, rfl, rfl⟩

/-- Witness for Claim C10 at two concrete states that differ only in the
yaml buffer. -/
theorem deterministic_outputs_witness :
    toonOutput demoState = toonOutput { demoState with yamlInput := "zz" } ∧
    yamlOutput demoState = yamlOutput { demoState with yamlInput := "zz" } ∧
    csvOutput demoState = csvOutput { demoState with yamlInput := "zz" } ∧
    encodeState wCodec (sessionOf demoState) =
      encodeState wCodec (sessionOf { demoState with yamlInput := "zz" }) :=
  deterministic_outputs wCodec demoState { demoState with yamlInput := "zz" }
    rfl rfl rfl rfl

end Playground
